import Mathlib

/-!
# kine `pkg/metrics`: slow-SQL observation and pool statistics

A shallow embedding of `pkg/metrics/metrics.go`.

* Durations are `time.Duration` values: signed nanosecond counts (`Int`).
* The Prometheus vectors are functions from the label value to the state of
  that label: a counter is the number of `Inc` calls, a histogram the list of
  observed values, oldest first. A label never used is at `0` / `[]`, which is
  what `WithLabelValues` creates on first use.
* The logrus standard logger is its level and the list of the records it
  has logged, oldest first. A record keeps the entry's fields, the severity,
  the format string and the operands. `Infof` / `Warnf` log a record only
  when the logger's level enables the severity, as logrus does
  (`IsLevelEnabled`); at a coarser level the call logs nothing.
* `float64` is a type parameter `F`, and `time.Duration.Seconds` a function
  `Seconds : Duration → F`: nothing is assumed about the conversion.
-/

namespace Metrics

/-- A `time.Duration`: nanoseconds. -/
abbrev Duration := Int

/-- A `time.Time`, as nanoseconds on the clock `time.Since` reads. -/
abbrev Time := Int

/-- The constant `time.Second`. -/
def Second : Duration := 1000000000

/-- The constant `time.Millisecond`. -/
def Millisecond : Duration := 1000000

/-- The constant `time.Microsecond`. -/
def Microsecond : Duration := 1000

/-- The largest `time.Duration` (`1<<63 - 1`). -/
def maxDuration : Duration := 9223372036854775807

/-- The smallest `time.Duration` (`-1 << 63`). -/
def minDuration : Duration := -9223372036854775808

/-- The duration `time.Since(start)` when the clock reads `now`: the
difference, saturated to the range of `time.Duration`. -/
def Since (now start : Time) : Duration :=
  if now - start > maxDuration then maxDuration
  else if now - start < minDuration then minDuration
  else now - start

/-- The logrus levels, in logrus's order. -/
inductive Level
  | Panic | Fatal | Error | Warn | Info | Debug | Trace
  deriving DecidableEq, Repr

/-- The number of a level: `PanicLevel` is `0`, `TraceLevel` is `6`. -/
def Level.toNat : Level → Nat
  | .Panic => 0
  | .Fatal => 1
  | .Error => 2
  | .Warn => 3
  | .Info => 4
  | .Debug => 5
  | .Trace => 6

/-- The method `(*logrus.Logger).IsLevelEnabled`: a logger whose level is
`logger` logs at severity `l` when `logger >= l`. -/
def IsLevelEnabled (logger l : Level) : Bool :=
  decide (l.toNat ≤ logger.toNat)

/-- A value the model of `fmt` renders: a Go integer, a string or a
`time.Duration`. -/
inductive Value
  | int (i : Int)
  | str (s : String)
  | duration (d : Duration)
  deriving DecidableEq, Repr

/-- An `interface{}` handed to logrus: a value as above, a `time.Time`, or a
`util.Stripped`.

Modelled from the spec: the type `util.Stripped` is declared in `pkg/util`,
which is not among the sources; it is "the operation's textual description",
an opaque text, kept here as the text it wraps. -/
inductive Operand
  | val (v : Value)
  | time (t : Time)
  | stripped (sql : String)
  deriving DecidableEq, Repr

/-- The value of a logrus field: one operand, or a slice of them (the
variadic `args`). -/
inductive FieldValue
  | one (v : Operand)
  | slice (vs : List Operand)
  deriving DecidableEq, Repr

/-- The `Data` of a `logrus.Entry`: its fields. -/
abbrev Entry := List (String × FieldValue)

/-- The package function `logrus.WithField`: a fresh entry of the standard
logger with the one field. -/
def WithField (key : String) (value : FieldValue) : Entry :=
  [(key, value)]

/-- The method `(*logrus.Entry).WithField`: a NEW entry with the receiver's
fields and the field `key`; the receiver is not changed. -/
def Entry.WithField (entry : Entry) (key : String) (value : FieldValue) : Entry :=
  entry.filter (fun kv => kv.1 ≠ key) ++ [(key, value)]

/-- One record the logger has logged for a call of `Infof` / `Warnf` on an
entry. -/
structure Record where
  level : Level
  data : Entry
  format : String
  operands : List Operand
  deriving DecidableEq, Repr

/-- The process-wide state the package reads and writes. `F` is `float64`. -/
structure World (F : Type) where
  SQLTotal : String → Nat
  SQLTime : String → List F
  CompactTotal : String → Nat
  InsertErrorsTotal : String → Nat
  SlowSQLThreshold : Duration
  SlowSQLWarningThreshold : Duration
  logLevel : Level
  log : List Record

/-- The method `Inc` on the counter of label `lv`. -/
def Inc (c : String → Nat) (lv : String) : String → Nat :=
  fun l => if l = lv then c l + 1 else c l

/-- The method `Observe` on the histogram of label `lv`. -/
def Observe {F : Type} (h : String → List F) (lv : String) (x : F) : String → List F :=
  fun l => if l = lv then h l ++ [x] else h l

/-- The entry method `Logf`, on a logger at level `logger` that has logged
`log`: the record is logged when the level enables the severity `l`, and
nothing happens otherwise. -/
def Entry.Logf (entry : Entry) (logger : Level) (log : List Record) (l : Level)
    (format : String) (operands : List Operand) : List Record :=
  if IsLevelEnabled logger l then log ++ [⟨l, entry, format, operands⟩] else log

/-- The entry method `Infof`: `Logf` at `InfoLevel`. -/
def Entry.Infof (entry : Entry) (logger : Level) (log : List Record) (format : String)
    (operands : List Operand) : List Record :=
  Entry.Logf entry logger log Level.Info format operands

/-- The entry method `Warnf`: `Logf` at `WarnLevel`. -/
def Entry.Warnf (entry : Entry) (logger : Level) (log : List Record) (format : String)
    (operands : List Operand) : List Record :=
  Entry.Logf entry logger log Level.Warn format operands

/-- The format string of both slow-SQL log calls. -/
def slowFormat : String := "Slow SQL (started: %v) (total time: %v): %s"

/-- The function `ObserveSQL`. `Seconds` is `time.Duration.Seconds`, `now` the
reading of the clock at the call of `time.Since`. -/
def ObserveSQL {F : Type} (Seconds : Duration → F) (w : World F) (now : Time)
    (start : Time) (errCode : String) (sql : String) (args : List Operand) : World F :=
  let w1 := { w with SQLTotal := Inc w.SQLTotal errCode }
  let duration := Since now start
  let w2 := { w1 with SQLTime := Observe w1.SQLTime errCode (Seconds duration) }
  if w2.SlowSQLThreshold > 0 ∧ duration ≥ w2.SlowSQLThreshold then
    let instrumentedLogger := WithField "duration" (.one (.val (.duration duration)))
    -- the entry `WithField` returns here is dropped by the source
    let _dropped : Option Entry :=
      if w2.logLevel = Level.Trace then
        some (instrumentedLogger.WithField "args" (.slice args))
      else none
    if duration < w2.SlowSQLWarningThreshold then
      { w2 with log := Entry.Infof instrumentedLogger w2.logLevel w2.log slowFormat
                         [.time start, .val (.duration duration), .stripped sql] }
    else
      { w2 with log := Entry.Warnf instrumentedLogger w2.logLevel w2.log slowFormat
                         [.time start, .val (.duration duration), .stripped sql] }
  else w2

/-- The loop of `fmtFrac`: `prec` times, take the last decimal digit of `v`
and write it in front of `buf` once a non-zero digit has been seen. -/
def fmtFracLoop : Nat → Nat → Bool → List Char → List Char × Nat × Bool
  | 0, v, print, buf => (buf, v, print)
  | prec + 1, v, print, buf =>
    let digit := v % 10
    let print := print || digit != 0
    let buf := if print then Char.ofNat (digit + 48) :: buf else buf
    fmtFracLoop prec (v / 10) print buf

/-- The function `fmtFrac` of package `time`: the fraction `v / 10^prec`
written in front of `buf` without its trailing zeros (and without the point
when nothing is left), and the integer part of it. -/
def fmtFrac (buf : List Char) (v : Nat) (prec : Nat) : List Char × Nat :=
  let r := fmtFracLoop prec v false buf
  (if r.2.2 then '.' :: r.1 else r.1, r.2.1)

/-- The function `fmtInt` of package `time`: the decimal digits of `v` written
in front of `buf`. -/
def fmtInt (buf : List Char) (v : Nat) : List Char :=
  (Nat.repr v).toList ++ buf

/-- The method `time.Duration.String`, on the magnitude `u` of the duration. -/
def formatDuration (u : Nat) : List Char :=
  if u < 1000000000 then
    if u = 0 then ['0', 's']
    else if u < 1000 then
      let r := fmtFrac ['n', 's'] u 0
      fmtInt r.1 r.2
    else if u < 1000000 then
      let r := fmtFrac ['µ', 's'] u 3
      fmtInt r.1 r.2
    else
      let r := fmtFrac ['m', 's'] u 6
      fmtInt r.1 r.2
  else
    let r := fmtFrac ['s'] u 9
    let u := r.2
    let buf := fmtInt r.1 (u % 60)
    let u := u / 60
    if u > 0 then
      let buf := fmtInt ('m' :: buf) (u % 60)
      let u := u / 60
      if u > 0 then fmtInt ('h' :: buf) u else buf
    else buf

/-- The method `time.Duration.String`: `"1.5s"`, `"2h45m0s"`, `"0s"`. -/
def Duration.String (d : Duration) : String :=
  String.mk (if d < 0 then '-' :: formatDuration d.natAbs else formatDuration d.natAbs)

/-- The Go type name `fmt` prints in its diagnostics. -/
def Value.typeName : Value → String
  | .int _ => "int"
  | .str _ => "string"
  | .duration _ => "time.Duration"

/-- The operand as `%v` prints it: an integer in decimal, a string as it is,
a duration through its `String` method. -/
def Value.format : Value → String
  | .int i => toString i
  | .str s => s
  | .duration d => Duration.String d

/-- One verb of `fmt` applied to one operand. Only the verbs the package uses,
and `%v`, are modelled: `%d` on integers (a duration is one), `%s` on strings
and on a duration, which has a `String` method. Anything else is printed in
the form of `fmt`'s bad-verb diagnostic, `%!verb(type=value)`. -/
def formatVerb (verb : Char) (a : Value) : String :=
  if verb = 'v' then a.format
  else if verb = 'd' then
    match a with
    | .int i => toString i
    | .duration d => toString d
    | .str s => "%!d(string=" ++ s ++ ")"
  else if verb = 's' then
    match a with
    | .str s => s
    | .duration d => Duration.String d
    | .int i => "%!s(int=" ++ toString i ++ ")"
  else "%!" ++ String.singleton verb ++ "(" ++ a.typeName ++ "=" ++ a.format ++ ")"

/-- The operands left over at the end of the format string, as `fmt` lists
them inside `%!(EXTRA ...)`. -/
def formatExtra : List Value → List String
  | [] => []
  | a :: rest => (a.typeName ++ "=" ++ a.format) :: formatExtra rest

/-- The scan of `fmt.Sprintf` over the characters of the format string:
plain characters are copied, `%%` is a percent sign, `%` and a verb letter
consume the next operand. -/
def sprintfLoop : List Char → List Value → List Char
  | [], [] => []
  | [], a :: rest =>
    ("%!(EXTRA " ++ ", ".intercalate (formatExtra (a :: rest)) ++ ")").toList
  | [c], args =>
    if c = '%' then "%!(NOVERB)".toList ++ sprintfLoop [] args
    else c :: sprintfLoop [] args
  | c :: verb :: rest, args =>
    if c = '%' then
      if verb = '%' then '%' :: sprintfLoop rest args
      else
        match args with
        | [] => ("%!" ++ String.singleton verb ++ "(MISSING)").toList ++ sprintfLoop rest []
        | a :: args => (formatVerb verb a).toList ++ sprintfLoop rest args
    else c :: sprintfLoop (verb :: rest) args

/-- The function `fmt.Sprintf`, for formats without flags, width or
precision. -/
def Sprintf (format : String) (args : List Value) : String :=
  String.mk (sprintfLoop format.toList args)

/-- The operand as a value of the model of `fmt`, when it is one. -/
def Operand.value : Operand → Option Value
  | .val v => some v
  | _ => none

/-- The operands as values of the model of `fmt`, when all of them are. -/
def operandValues : List Operand → Option (List Value)
  | [] => some []
  | a :: rest =>
    match a.value, operandValues rest with
    | some v, some vs => some (v :: vs)
    | _, _ => none

/-- The message logrus writes for the record, `fmt.Sprintf(format, operands...)`,
when every operand is one the model of `fmt` renders. -/
def Record.message (r : Record) : Option String :=
  (operandValues r.operands).map (Sprintf r.format)

/-- The pool snapshot `sql.DBStats`.

Modelled from the spec: the type is declared in `pkg/database/sql`, which is not
among the sources. The spec gives it nine integer/duration fields: the
configured maximum, the open, in-use and idle counts, the cumulative wait count
and wait duration, and the counts of connections closed for being idle,
idle too long, or too old. The names are the ones `WriteDBStats` reads. -/
structure DBStats where
  MaxOpenConnections : Int
  OpenConnections : Int
  InUse : Int
  Idle : Int
  WaitCount : Int
  WaitDuration : Duration
  MaxIdleClosed : Int
  MaxIdleTimeClosed : Int
  MaxLifetimeClosed : Int
  deriving DecidableEq, Repr

/-- The format string of the statistics line in `WriteDBStats`. -/
def statsFormat : String :=
  "maxOpenConnections: %d, openConections: %d, inUse: %d, idle: %d, waitCount: %d, waitDuration: %s, maxIdleClosed: %d, maxIdleTimeClosed %d, maxLifetimeClosed: %d"

/-- The function `WriteDBStats`. -/
def WriteDBStats {F : Type} (w : World F) (id : Int) (name : String)
    (stats : DBStats) : World F :=
  let instrumentedLogger := WithField "dbstatsName" (.one (.val (.str name)))
  let s := Sprintf statsFormat
    [.int stats.MaxOpenConnections,
     .int stats.OpenConnections,
     .int stats.InUse,
     .int stats.Idle,
     .int stats.WaitCount,
     .duration stats.WaitDuration,
     .int stats.MaxIdleClosed,
     .int stats.MaxIdleTimeClosed,
     .int stats.MaxLifetimeClosed]
  { w with log := Entry.Infof instrumentedLogger w.logLevel w.log "ID: %d, DB stats: %s"
                    [.val (.int id), .val (.str s)] }

/-- The `Buckets` of the histogram `SQLTime`, in seconds: the decimal
literals of the source. -/
def Buckets : List ℚ :=
  [0.005, 0.01, 0.025, 0.05, 0.1, 0.15, 0.2, 0.25, 0.3, 0.35, 0.4, 0.45, 0.5, 0.6, 0.7, 0.8, 0.9, 1.0,
   1.5, 2.0, 2.5, 3.0, 3.5, 4.0, 4.5, 5, 6, 7, 8, 9, 10, 15, 20, 25, 30]

/-- The state at process start: fresh vectors, the two thresholds at their
initial values, nothing logged. The level is the one logrus starts with. -/
def World.init (F : Type) : World F where
  SQLTotal := fun _ => 0
  SQLTime := fun _ => []
  CompactTotal := fun _ => 0
  InsertErrorsTotal := fun _ => 0
  SlowSQLThreshold := Second
  SlowSQLWarningThreshold := 5 * Second
  logLevel := Level.Info
  log := []

/-- The records the call added to the log: what is in `after` behind the
records of `before`. -/
def emitted (before after : List Record) : List Record :=
  after.drop before.length

/-- How many of the records are at severity `l`. -/
def countLevel (l : Level) (rs : List Record) : Nat :=
  (rs.filter (fun r => r.level = l)).length

/-- The number of seconds of a duration as an exact fraction: the value
`time.Duration.Seconds` rounds to `float64`. It stands for `Seconds` where a
concrete instance is evaluated. -/
def exactSeconds (d : Duration) : ℚ := (d : ℚ) / 1000000000

/-- The record of a slow-SQL log call at severity `l`. -/
def slowRecord (l : Level) (start : Time) (duration : Duration) (sql : String) : Record :=
  ⟨l, [("duration", .one (.val (.duration duration)))], slowFormat,
    [.time start, .val (.duration duration), .stripped sql]⟩

/-! ## Shared lemmas -/

theorem Since_add (start : Time) (d : Duration) (hlo : minDuration ≤ d)
    (hhi : d ≤ maxDuration) : Since (start + d) start = d := by
  have hd : start + d - start = d := by ring
  simp only [Since, hd]
  rw [if_neg (not_lt.mpr hhi), if_neg (not_lt.mpr hlo)]

theorem emitted_append (l r : List Record) : emitted l (l ++ r) = r := by
  simp [emitted]

theorem emitted_self (l : List Record) : emitted l l = [] := by
  simp [emitted]

theorem log_quiet {F : Type} (Seconds : Duration → F) (w : World F) (now start : Time)
    (errCode sql : String) (args : List Operand)
    (h : ¬ (w.SlowSQLThreshold > 0 ∧ Since now start ≥ w.SlowSQLThreshold)) :
    (ObserveSQL Seconds w now start errCode sql args).log = w.log := by
  simp only [ObserveSQL]
  rw [if_neg h]

theorem log_info {F : Type} (Seconds : Duration → F) (w : World F) (now start : Time)
    (errCode sql : String) (args : List Operand)
    (hpos : 0 < w.SlowSQLThreshold) (hslow : w.SlowSQLThreshold ≤ Since now start)
    (hcrit : Since now start < w.SlowSQLWarningThreshold) :
    (ObserveSQL Seconds w now start errCode sql args).log
      = if IsLevelEnabled w.logLevel Level.Info
        then w.log ++ [slowRecord Level.Info start (Since now start) sql]
        else w.log := by
  have h : w.SlowSQLThreshold > 0 ∧ Since now start ≥ w.SlowSQLThreshold := ⟨hpos, hslow⟩
  simp only [ObserveSQL]
  rw [if_pos h, if_pos hcrit]
  rfl

theorem log_warn {F : Type} (Seconds : Duration → F) (w : World F) (now start : Time)
    (errCode sql : String) (args : List Operand)
    (hpos : 0 < w.SlowSQLThreshold) (hslow : w.SlowSQLThreshold ≤ Since now start)
    (hcrit : w.SlowSQLWarningThreshold ≤ Since now start) :
    (ObserveSQL Seconds w now start errCode sql args).log
      = if IsLevelEnabled w.logLevel Level.Warn
        then w.log ++ [slowRecord Level.Warn start (Since now start) sql]
        else w.log := by
  have h : w.SlowSQLThreshold > 0 ∧ Since now start ≥ w.SlowSQLThreshold := ⟨hpos, hslow⟩
  simp only [ObserveSQL]
  rw [if_pos h, if_neg (not_lt.mpr hcrit)]
  rfl

theorem log_info_on {F : Type} (Seconds : Duration → F) (w : World F) (now start : Time)
    (errCode sql : String) (args : List Operand)
    (hpos : 0 < w.SlowSQLThreshold) (hslow : w.SlowSQLThreshold ≤ Since now start)
    (hcrit : Since now start < w.SlowSQLWarningThreshold)
    (hlvl : IsLevelEnabled w.logLevel Level.Info = true) :
    (ObserveSQL Seconds w now start errCode sql args).log
      = w.log ++ [slowRecord Level.Info start (Since now start) sql] := by
  rw [log_info Seconds w now start errCode sql args hpos hslow hcrit, if_pos hlvl]

theorem log_warn_on {F : Type} (Seconds : Duration → F) (w : World F) (now start : Time)
    (errCode sql : String) (args : List Operand)
    (hpos : 0 < w.SlowSQLThreshold) (hslow : w.SlowSQLThreshold ≤ Since now start)
    (hcrit : w.SlowSQLWarningThreshold ≤ Since now start)
    (hlvl : IsLevelEnabled w.logLevel Level.Warn = true) :
    (ObserveSQL Seconds w now start errCode sql args).log
      = w.log ++ [slowRecord Level.Warn start (Since now start) sql] := by
  rw [log_warn Seconds w now start errCode sql args hpos hslow hcrit, if_pos hlvl]

theorem metrics_after {F : Type} (Seconds : Duration → F) (w : World F) (now start : Time)
    (errCode sql : String) (args : List Operand) :
    (ObserveSQL Seconds w now start errCode sql args).SQLTotal = Inc w.SQLTotal errCode
    ∧ (ObserveSQL Seconds w now start errCode sql args).SQLTime
        = Observe w.SQLTime errCode (Seconds (Since now start))
    ∧ (ObserveSQL Seconds w now start errCode sql args).CompactTotal = w.CompactTotal
    ∧ (ObserveSQL Seconds w now start errCode sql args).InsertErrorsTotal
        = w.InsertErrorsTotal
    ∧ (ObserveSQL Seconds w now start errCode sql args).SlowSQLThreshold
        = w.SlowSQLThreshold
    ∧ (ObserveSQL Seconds w now start errCode sql args).SlowSQLWarningThreshold
        = w.SlowSQLWarningThreshold := by
  simp only [ObserveSQL]
  split_ifs <;> simp

/-! ## The severity decision of `ObserveSQL` -/

/-- C1, as amended: when `SlowSQLThreshold` is positive, the logger's level is info
or finer, and the elapsed duration `d` has `slow ≤ d < critical`, one call of
`ObserveSQL` adds exactly one record to the log, at informational severity, and
none at warning severity. -/
theorem ObserveSQL_info_between {F : Type} (Seconds : Duration → F) (w : World F)
    (now start : Time) (errCode sql : String) (args : List Operand)
    (hpos : 0 < w.SlowSQLThreshold)
    (hlvl : IsLevelEnabled w.logLevel Level.Info = true)
    (hslow : w.SlowSQLThreshold ≤ Since now start)
    (hcrit : Since now start < w.SlowSQLWarningThreshold) :
    (ObserveSQL Seconds w now start errCode sql args).log
        = w.log ++ [slowRecord Level.Info start (Since now start) sql]
    ∧ countLevel Level.Info
        (emitted w.log (ObserveSQL Seconds w now start errCode sql args).log) = 1
    ∧ countLevel Level.Warn
        (emitted w.log (ObserveSQL Seconds w now start errCode sql args).log) = 0 := by
  rw [log_info_on Seconds w now start errCode sql args hpos hslow hcrit hlvl, emitted_append]
  exact ⟨rfl, by simp [countLevel, slowRecord], by simp [countLevel, slowRecord]⟩

/-- Witness for C1: the initial thresholds, level info, an elapsed duration of
1.2 s. -/
theorem ObserveSQL_info_between_witness :
    (0 < (World.init ℚ).SlowSQLThreshold
      ∧ IsLevelEnabled (World.init ℚ).logLevel Level.Info = true
      ∧ (World.init ℚ).SlowSQLThreshold ≤ Since 1200000000 0
      ∧ Since 1200000000 0 < (World.init ℚ).SlowSQLWarningThreshold)
    ∧ ((ObserveSQL exactSeconds (World.init ℚ) 1200000000 0 "success" "SELECT 1" []).log
        = (World.init ℚ).log ++ [slowRecord Level.Info 0 (Since 1200000000 0) "SELECT 1"]
      ∧ countLevel Level.Info (emitted (World.init ℚ).log
          (ObserveSQL exactSeconds (World.init ℚ) 1200000000 0 "success" "SELECT 1" []).log) = 1
      ∧ countLevel Level.Warn (emitted (World.init ℚ).log
          (ObserveSQL exactSeconds (World.init ℚ) 1200000000 0 "success" "SELECT 1" []).log) = 0) :=
  ⟨⟨by decide, by decide, by decide, by decide⟩,
   ObserveSQL_info_between exactSeconds (World.init ℚ) 1200000000 0 "success" "SELECT 1" []
    (by decide) (by decide) (by decide) (by decide)⟩

/-- C1, as stated, fails in two ways. With `SlowSQLThreshold = 0` and
`critical = 5 s`, an elapsed duration of 1 s has `slow ≤ d < critical`, and the
call logs nothing. With the thresholds at 1 s and 5 s and the logger at level
error, an elapsed duration of 2 s has `slow ≤ d < critical`, and the call logs
nothing either. -/
theorem ObserveSQL_info_between_counterexample :
    ((0 : Duration) ≤ Since 1000000000 0
      ∧ Since 1000000000 0 < (World.init ℚ).SlowSQLWarningThreshold
      ∧ (ObserveSQL exactSeconds { World.init ℚ with SlowSQLThreshold := 0 }
          1000000000 0 "success" "SELECT 1" []).log = [])
    ∧ ((World.init ℚ).SlowSQLThreshold ≤ Since 2000000000 0
      ∧ Since 2000000000 0 < (World.init ℚ).SlowSQLWarningThreshold
      ∧ (ObserveSQL exactSeconds { World.init ℚ with logLevel := Level.Error }
          2000000000 0 "success" "SELECT 1" []).log = []) := by
  refine ⟨⟨by decide, by decide, ?_⟩, ⟨by decide, by decide, ?_⟩⟩
  · exact log_quiet exactSeconds { World.init ℚ with SlowSQLThreshold := 0 } _ _ _ _ _
      (by decide)
  · rw [log_info exactSeconds { World.init ℚ with logLevel := Level.Error } _ _ _ _ _
      (by decide) (by decide) (by decide)]
    rfl

/-- C2, as amended: when `SlowSQLThreshold` is positive, the logger's level is warn
or finer, and the elapsed duration `d` has `d ≥ slow` and `d ≥ critical`, one call
of `ObserveSQL` adds exactly one record to the log, at warning severity, and none
at informational severity. -/
theorem ObserveSQL_warn_from_critical {F : Type} (Seconds : Duration → F) (w : World F)
    (now start : Time) (errCode sql : String) (args : List Operand)
    (hpos : 0 < w.SlowSQLThreshold)
    (hlvl : IsLevelEnabled w.logLevel Level.Warn = true)
    (hslow : w.SlowSQLThreshold ≤ Since now start)
    (hcrit : w.SlowSQLWarningThreshold ≤ Since now start) :
    (ObserveSQL Seconds w now start errCode sql args).log
        = w.log ++ [slowRecord Level.Warn start (Since now start) sql]
    ∧ countLevel Level.Warn
        (emitted w.log (ObserveSQL Seconds w now start errCode sql args).log) = 1
    ∧ countLevel Level.Info
        (emitted w.log (ObserveSQL Seconds w now start errCode sql args).log) = 0 := by
  rw [log_warn_on Seconds w now start errCode sql args hpos hslow hcrit hlvl, emitted_append]
  exact ⟨rfl, by simp [countLevel, slowRecord], by simp [countLevel, slowRecord]⟩

/-- Witness for C2: the initial thresholds, level info, an elapsed duration of
7 s. -/
theorem ObserveSQL_warn_from_critical_witness :
    (0 < (World.init ℚ).SlowSQLThreshold
      ∧ IsLevelEnabled (World.init ℚ).logLevel Level.Warn = true
      ∧ (World.init ℚ).SlowSQLThreshold ≤ Since 7000000000 0
      ∧ (World.init ℚ).SlowSQLWarningThreshold ≤ Since 7000000000 0)
    ∧ ((ObserveSQL exactSeconds (World.init ℚ) 7000000000 0 "error" "SELECT 1" []).log
        = (World.init ℚ).log ++ [slowRecord Level.Warn 0 (Since 7000000000 0) "SELECT 1"]
      ∧ countLevel Level.Warn (emitted (World.init ℚ).log
          (ObserveSQL exactSeconds (World.init ℚ) 7000000000 0 "error" "SELECT 1" []).log) = 1
      ∧ countLevel Level.Info (emitted (World.init ℚ).log
          (ObserveSQL exactSeconds (World.init ℚ) 7000000000 0 "error" "SELECT 1" []).log) = 0) :=
  ⟨⟨by decide, by decide, by decide, by decide⟩,
   ObserveSQL_warn_from_critical exactSeconds (World.init ℚ) 7000000000 0 "error" "SELECT 1" []
    (by decide) (by decide) (by decide) (by decide)⟩

/-- C2, as stated, fails in three ways. With `SlowSQLThreshold = 0` and
`critical = 5 s`, an elapsed duration of 7 s is `≥ critical` and nothing is logged.
With `SlowSQLThreshold = 5 s` and `critical = 1 s`, an elapsed duration of 2 s is
`≥ critical` and nothing is logged. With the thresholds at 1 s and 5 s and the
logger at level error, an elapsed duration of 7 s is `≥ critical` and nothing is
logged. -/
theorem ObserveSQL_warn_from_critical_counterexample :
    ((World.init ℚ).SlowSQLWarningThreshold ≤ Since 7000000000 0
      ∧ (ObserveSQL exactSeconds { World.init ℚ with SlowSQLThreshold := 0 }
          7000000000 0 "success" "SELECT 1" []).log = [])
    ∧ ((1000000000 : Duration) ≤ Since 2000000000 0
      ∧ (ObserveSQL exactSeconds
          { World.init ℚ with SlowSQLThreshold := 5000000000,
                              SlowSQLWarningThreshold := 1000000000 }
          2000000000 0 "success" "SELECT 1" []).log = [])
    ∧ ((World.init ℚ).SlowSQLWarningThreshold ≤ Since 7000000000 0
      ∧ (ObserveSQL exactSeconds { World.init ℚ with logLevel := Level.Error }
          7000000000 0 "success" "SELECT 1" []).log = []) := by
  refine ⟨⟨by decide, ?_⟩, ⟨by decide, ?_⟩, ⟨by decide, ?_⟩⟩
  · exact log_quiet exactSeconds { World.init ℚ with SlowSQLThreshold := 0 } _ _ _ _ _
      (by decide)
  · exact log_quiet exactSeconds
      { World.init ℚ with SlowSQLThreshold := 5000000000,
                          SlowSQLWarningThreshold := 1000000000 } _ _ _ _ _ (by decide)
  · rw [log_warn exactSeconds { World.init ℚ with logLevel := Level.Error } _ _ _ _ _
      (by decide) (by decide) (by decide)]
    rfl

/-- C3: when the elapsed duration is below `SlowSQLThreshold`, one call of
`ObserveSQL` adds no record to the log, at any severity, whatever the label, the
SQL text, the args and the log level are. -/
theorem ObserveSQL_silent_below_slow {F : Type} (Seconds : Duration → F) (w : World F)
    (now start : Time) (errCode sql : String) (args : List Operand)
    (h : Since now start < w.SlowSQLThreshold) :
    (ObserveSQL Seconds w now start errCode sql args).log = w.log
    ∧ emitted w.log (ObserveSQL Seconds w now start errCode sql args).log = [] := by
  have hq : ¬ (w.SlowSQLThreshold > 0 ∧ Since now start ≥ w.SlowSQLThreshold) :=
    fun hc => absurd h (not_lt.mpr hc.2)
  rw [log_quiet Seconds w now start errCode sql args hq]
  exact ⟨rfl, emitted_self _⟩

/-- Witness for C3: the initial thresholds, trace level, an elapsed duration of
0.9 s. -/
theorem ObserveSQL_silent_below_slow_witness :
    Since 900000000 0 < ({ World.init ℚ with logLevel := Level.Trace }).SlowSQLThreshold
    ∧ ((ObserveSQL exactSeconds { World.init ℚ with logLevel := Level.Trace }
          900000000 0 "error" "SELECT 1" [.val (.int 7)]).log
        = ({ World.init ℚ with logLevel := Level.Trace }).log
      ∧ emitted ({ World.init ℚ with logLevel := Level.Trace }).log
          (ObserveSQL exactSeconds { World.init ℚ with logLevel := Level.Trace }
            900000000 0 "error" "SELECT 1" [.val (.int 7)]).log = []) :=
  ⟨by decide,
   ObserveSQL_silent_below_slow exactSeconds { World.init ℚ with logLevel := Level.Trace }
    900000000 0 "error" "SELECT 1" [.val (.int 7)] (by decide)⟩

/-- C4: when `SlowSQLThreshold` is zero or negative, `ObserveSQL` adds no record to
the log, for every elapsed duration and every `SlowSQLWarningThreshold`, also for
the durations at or above `SlowSQLWarningThreshold`. -/
theorem ObserveSQL_silent_when_disabled {F : Type} (Seconds : Duration → F) (w : World F)
    (now start : Time) (errCode sql : String) (args : List Operand)
    (h : w.SlowSQLThreshold ≤ 0) :
    (ObserveSQL Seconds w now start errCode sql args).log = w.log
    ∧ emitted w.log (ObserveSQL Seconds w now start errCode sql args).log = [] := by
  have hq : ¬ (w.SlowSQLThreshold > 0 ∧ Since now start ≥ w.SlowSQLThreshold) :=
    fun hc => absurd hc.1 (not_lt.mpr h)
  rw [log_quiet Seconds w now start errCode sql args hq]
  exact ⟨rfl, emitted_self _⟩

/-- Witness for C4: `SlowSQLThreshold = 0`, `critical = 5 s`, an elapsed duration
of 7 s. -/
theorem ObserveSQL_silent_when_disabled_witness :
    (({ World.init ℚ with SlowSQLThreshold := 0 }).SlowSQLThreshold ≤ 0
      ∧ ({ World.init ℚ with SlowSQLThreshold := 0 }).SlowSQLWarningThreshold
          ≤ Since 7000000000 0)
    ∧ ((ObserveSQL exactSeconds { World.init ℚ with SlowSQLThreshold := 0 }
          7000000000 0 "success" "SELECT 1" []).log
        = ({ World.init ℚ with SlowSQLThreshold := 0 }).log
      ∧ emitted ({ World.init ℚ with SlowSQLThreshold := 0 }).log
          (ObserveSQL exactSeconds { World.init ℚ with SlowSQLThreshold := 0 }
            7000000000 0 "success" "SELECT 1" []).log = []) :=
  ⟨⟨by decide, by decide⟩,
   ObserveSQL_silent_when_disabled exactSeconds { World.init ℚ with SlowSQLThreshold := 0 }
    7000000000 0 "success" "SELECT 1" [] (by decide)⟩

/-! ## The metrics of `ObserveSQL` -/

/-- C5: for every call of `ObserveSQL`, every threshold configuration and every
elapsed duration, negative ones included, the counter `SQLTotal` of the label
`errCode` grows by one and the histogram `SQLTime` of the label `errCode` gets one
more observation, `Seconds` of the elapsed duration; the counters and histograms
of every other label, and the other two vectors, stay as they were. -/
theorem ObserveSQL_metrics {F : Type} (Seconds : Duration → F) (w : World F)
    (now start : Time) (errCode sql : String) (args : List Operand) :
    (∀ l, (ObserveSQL Seconds w now start errCode sql args).SQLTotal l
        = if l = errCode then w.SQLTotal l + 1 else w.SQLTotal l)
    ∧ (∀ l, (ObserveSQL Seconds w now start errCode sql args).SQLTime l
        = if l = errCode then w.SQLTime l ++ [Seconds (Since now start)] else w.SQLTime l)
    ∧ (ObserveSQL Seconds w now start errCode sql args).CompactTotal = w.CompactTotal
    ∧ (ObserveSQL Seconds w now start errCode sql args).InsertErrorsTotal
        = w.InsertErrorsTotal := by
  obtain ⟨h1, h2, h3, h4, -, -⟩ := metrics_after Seconds w now start errCode sql args
  exact ⟨fun l => by rw [h1]; rfl, fun l => by rw [h2]; rfl, h3, h4⟩

/-! ## The `args` field -/

/-- C6, at the failing input: at trace level, with the initial thresholds, an
elapsed duration of 2 s and the args `[42]`, the one record `ObserveSQL` logs has
the field `duration` and no field `args`: the entry that `WithField("args", args)`
returns is dropped, and the record is logged on the entry without it. -/
theorem ObserveSQL_trace_args_dropped :
    ({ World.init ℚ with logLevel := Level.Trace }).logLevel = Level.Trace
    ∧ (ObserveSQL exactSeconds { World.init ℚ with logLevel := Level.Trace }
        2000000000 0 "success" "SELECT 1" [.val (.int 42)]).log
      = [⟨Level.Info, [("duration", .one (.val (.duration 2000000000)))], slowFormat,
          [.time 0, .val (.duration 2000000000), .stripped "SELECT 1"]⟩]
    ∧ ((ObserveSQL exactSeconds { World.init ℚ with logLevel := Level.Trace }
        2000000000 0 "success" "SELECT 1" [.val (.int 42)]).log.map
          (fun r => r.data.lookup "args")) = [none] := by
  decide

/-! ## `WriteDBStats` -/

set_option maxRecDepth 100000 in
theorem Sprintf_stats (a b c d e g h i : Int) (f : Duration) :
    Sprintf statsFormat [.int a, .int b, .int c, .int d, .int e, .duration f,
        .int g, .int h, .int i]
      = "maxOpenConnections: " ++ toString a
          ++ ", openConections: " ++ toString b
          ++ ", inUse: " ++ toString c
          ++ ", idle: " ++ toString d
          ++ ", waitCount: " ++ toString e
          ++ ", waitDuration: " ++ Duration.String f
          ++ ", maxIdleClosed: " ++ toString g
          ++ ", maxIdleTimeClosed " ++ toString h
          ++ ", maxLifetimeClosed: " ++ toString i := by
  apply String.ext
  simp [Sprintf, sprintfLoop, formatVerb, statsFormat, String.toList]

theorem Sprintf_line (id : Int) (s : String) :
    Sprintf "ID: %d, DB stats: %s" [.int id, .str s]
      = "ID: " ++ toString id ++ ", DB stats: " ++ s := by
  apply String.ext
  simp [Sprintf, sprintfLoop, formatVerb, String.toList]

/-- C7, as amended: when the logger's level is info or finer, for every id, name
and snapshot, `WriteDBStats` adds exactly one record to the log and changes nothing
else of the state (no vector, neither threshold); the record is at informational
severity, has the one field `dbstatsName` with `name`, and its message is
`ID: <id>, DB stats: ` followed by the nine values, each after its label, in the
order max-open, open, in-use, idle, wait-count, wait-duration, idle-closed,
idle-time-closed, lifetime-closed. -/
theorem WriteDBStats_line {F : Type} (w : World F) (id : Int) (name : String)
    (stats : DBStats) (hlvl : IsLevelEnabled w.logLevel Level.Info = true) :
    ∃ r : Record,
      WriteDBStats w id name stats = { w with log := w.log ++ [r] }
      ∧ r.level = Level.Info
      ∧ r.data = [("dbstatsName", .one (.val (.str name)))]
      ∧ r.message = some ("ID: " ++ toString id ++ ", DB stats: "
          ++ "maxOpenConnections: " ++ toString stats.MaxOpenConnections
          ++ ", openConections: " ++ toString stats.OpenConnections
          ++ ", inUse: " ++ toString stats.InUse
          ++ ", idle: " ++ toString stats.Idle
          ++ ", waitCount: " ++ toString stats.WaitCount
          ++ ", waitDuration: " ++ Duration.String stats.WaitDuration
          ++ ", maxIdleClosed: " ++ toString stats.MaxIdleClosed
          ++ ", maxIdleTimeClosed " ++ toString stats.MaxIdleTimeClosed
          ++ ", maxLifetimeClosed: " ++ toString stats.MaxLifetimeClosed) := by
  refine ⟨⟨Level.Info, [("dbstatsName", .one (.val (.str name)))], "ID: %d, DB stats: %s",
      [.val (.int id), .val (.str (Sprintf statsFormat
        [.int stats.MaxOpenConnections, .int stats.OpenConnections, .int stats.InUse,
         .int stats.Idle, .int stats.WaitCount, .duration stats.WaitDuration,
         .int stats.MaxIdleClosed, .int stats.MaxIdleTimeClosed,
         .int stats.MaxLifetimeClosed]))]⟩, ?_, rfl, rfl, ?_⟩
  · simp only [WriteDBStats, Entry.Infof, Entry.Logf]
    rw [if_pos hlvl]
    rfl
  · simp only [Record.message, operandValues, Operand.value, Option.map_some',
      Option.some.injEq]
    rw [Sprintf_line, Sprintf_stats]
    simp only [String.append_assoc]

/-- Witness for C7: the initial state (level info) and the snapshot with max-open
10, open 3, in-use 2, idle 1 and the rest 0, reported for the pool 4 under the name
`primary`. -/
theorem WriteDBStats_line_witness :
    IsLevelEnabled (World.init ℚ).logLevel Level.Info = true
    ∧ ∃ r : Record,
      WriteDBStats (World.init ℚ) 4 "primary" ⟨10, 3, 2, 1, 0, 0, 0, 0, 0⟩
        = { World.init ℚ with log := (World.init ℚ).log ++ [r] }
      ∧ r.level = Level.Info
      ∧ r.data = [("dbstatsName", .one (.val (.str "primary")))]
      ∧ r.message = some ("ID: " ++ toString (4 : Int) ++ ", DB stats: "
          ++ "maxOpenConnections: " ++ toString (10 : Int)
          ++ ", openConections: " ++ toString (3 : Int)
          ++ ", inUse: " ++ toString (2 : Int)
          ++ ", idle: " ++ toString (1 : Int)
          ++ ", waitCount: " ++ toString (0 : Int)
          ++ ", waitDuration: " ++ Duration.String 0
          ++ ", maxIdleClosed: " ++ toString (0 : Int)
          ++ ", maxIdleTimeClosed " ++ toString (0 : Int)
          ++ ", maxLifetimeClosed: " ++ toString (0 : Int)) :=
  ⟨by decide, WriteDBStats_line (World.init ℚ) 4 "primary" ⟨10, 3, 2, 1, 0, 0, 0, 0, 0⟩
    (by decide)⟩

/-- C7, as stated, fails: with the logger at level warn, `WriteDBStats` logs
nothing. -/
theorem WriteDBStats_line_counterexample :
    (WriteDBStats { World.init ℚ with logLevel := Level.Warn } 4 "primary"
      ⟨10, 3, 2, 1, 0, 0, 0, 0, 0⟩).log = [] := by
  rfl

/-! ## The buckets of `SQLTime` -/

/-- C8, as amended: the bucket boundaries of `SQLTime` are, in this order, 5, 10, 25,
50, 100, 150, 200, 250, 300, 350, 400, 450, 500, 600, 700, 800, 900, 1000
milliseconds, then 1.5 s up to 5 s in steps of 0.5 s, then 6, 7, 8, 9, 10 s, then
15, 20, 25, 30 s; the list is strictly increasing, from 5 ms to 30 s. -/
theorem Buckets_exact :
    Buckets = ([5, 10, 25, 50, 100, 150, 200, 250, 300, 350, 400, 450, 500, 600, 700,
                800, 900, 1000].map (fun ms : ℚ => ms / 1000))
              ++ [3/2, 2, 5/2, 3, 7/2, 4, 9/2, 5]
              ++ [6, 7, 8, 9, 10]
              ++ [15, 20, 25, 30]
    ∧ List.Sorted (fun a b : ℚ => a < b) Buckets
    ∧ Buckets.head? = some (5 / 1000)
    ∧ Buckets.getLast? = some 30 := by
  refine ⟨?_, ?_, ?_, ?_⟩
  · norm_num [Buckets]
  · apply List.chain'_iff_pairwise.mp
    simp only [Buckets, List.chain'_cons, List.chain'_singleton]
    norm_num
  · simp only [Buckets, List.head?_cons]
    norm_num
  · simp only [Buckets, List.getLast?_cons_cons, List.getLast?_singleton]

/-- C8, as stated, fails: the list that goes from 1.5 s up to 10 s in steps of 0.5 s
has the boundaries 5.5, 6.5, 7.5, 8.5 and 9.5 s, which `Buckets` does not have; it
has 40 boundaries and `Buckets` has 35. -/
theorem Buckets_exact_counterexample :
    Buckets ≠ ([5, 10, 25, 50, 100, 150, 200, 250, 300, 350, 400, 450, 500, 600, 700,
                800, 900, 1000].map (fun ms : ℚ => ms / 1000))
              ++ [3/2, 2, 5/2, 3, 7/2, 4, 9/2, 5, 11/2, 6, 13/2, 7, 15/2, 8, 17/2, 9,
                  19/2, 10]
              ++ [15, 20, 25, 30]
    ∧ (11 / 2 : ℚ) ∉ Buckets
    ∧ Buckets.length = 35 := by
  refine ⟨?_, ?_, rfl⟩
  · intro h
    have hl : Buckets.length = 40 := by rw [h]; rfl
    have hb : Buckets.length = 35 := rfl
    omega
  · simp only [Buckets, List.mem_cons, List.mem_singleton, List.not_mem_nil, not_or]
    norm_num

/-! ## The initial thresholds, and inverted thresholds -/

/-- C9, as amended: the thresholds start at `SlowSQLThreshold = 1 s` and
`SlowSQLWarningThreshold = 5 s`, and in a state with these values `ObserveSQL`, for
every elapsed duration `d`, logs nothing when `d < 1 s`, exactly one informational
record when `1 s ≤ d < 5 s` and the logger's level is info or finer, and exactly
one warning record when `d ≥ 5 s` and the logger's level is warn or finer; in each
case the counter of the label grows by one and its histogram gets one
observation. -/
theorem ObserveSQL_initial_thresholds {F : Type} (Seconds : Duration → F) (w : World F)
    (now start : Time) (errCode sql : String) (args : List Operand)
    (hslow : w.SlowSQLThreshold = (World.init F).SlowSQLThreshold)
    (hcrit : w.SlowSQLWarningThreshold = (World.init F).SlowSQLWarningThreshold) :
    ((World.init F).SlowSQLThreshold = 1000000000
      ∧ (World.init F).SlowSQLWarningThreshold = 5000000000)
    ∧ ((ObserveSQL Seconds w now start errCode sql args).SQLTotal errCode
          = w.SQLTotal errCode + 1
      ∧ (ObserveSQL Seconds w now start errCode sql args).SQLTime errCode
          = w.SQLTime errCode ++ [Seconds (Since now start)])
    ∧ (Since now start < 1000000000 →
        (ObserveSQL Seconds w now start errCode sql args).log = w.log)
    ∧ (1000000000 ≤ Since now start → Since now start < 5000000000 →
        IsLevelEnabled w.logLevel Level.Info = true →
        (ObserveSQL Seconds w now start errCode sql args).log
          = w.log ++ [slowRecord Level.Info start (Since now start) sql])
    ∧ (5000000000 ≤ Since now start →
        IsLevelEnabled w.logLevel Level.Warn = true →
        (ObserveSQL Seconds w now start errCode sql args).log
          = w.log ++ [slowRecord Level.Warn start (Since now start) sql]) := by
  have h1 : w.SlowSQLThreshold = 1000000000 := hslow
  have h5 : w.SlowSQLWarningThreshold = 5000000000 := hcrit
  obtain ⟨hc, ht, -⟩ := metrics_after Seconds w now start errCode sql args
  refine ⟨⟨rfl, rfl⟩, ⟨?_, ?_⟩, ?_, ?_, ?_⟩
  · rw [hc]; simp [Inc]
  · rw [ht]; simp [Observe]
  · intro hd
    exact log_quiet Seconds w now start errCode sql args (fun h => by linarith [h.2])
  · intro hlo hhi hlvl
    exact log_info_on Seconds w now start errCode sql args (by linarith) (by linarith)
      (by linarith) hlvl
  · intro hlo hlvl
    exact log_warn_on Seconds w now start errCode sql args (by linarith) (by linarith)
      (by linarith) hlvl

/-- Witness for C9: the initial state, with elapsed durations of 1.2 s and of 7 s. -/
theorem ObserveSQL_initial_thresholds_witness :
    ((World.init ℚ).SlowSQLThreshold = (World.init ℚ).SlowSQLThreshold
      ∧ (World.init ℚ).SlowSQLWarningThreshold = (World.init ℚ).SlowSQLWarningThreshold)
    ∧ (ObserveSQL exactSeconds (World.init ℚ) 1200000000 0 "success" "SELECT 1" []).log
        = (World.init ℚ).log ++ [slowRecord Level.Info 0 (Since 1200000000 0) "SELECT 1"]
    ∧ (ObserveSQL exactSeconds (World.init ℚ) 7000000000 0 "success" "SELECT 1" []).log
        = (World.init ℚ).log ++ [slowRecord Level.Warn 0 (Since 7000000000 0) "SELECT 1"]
    ∧ (ObserveSQL exactSeconds (World.init ℚ) 1200000000 0 "success" "SELECT 1" []).SQLTotal
        "success" = 1 :=
  ⟨⟨rfl, rfl⟩,
   (ObserveSQL_initial_thresholds exactSeconds (World.init ℚ) 1200000000 0 "success"
      "SELECT 1" [] rfl rfl).2.2.2.1 (by decide) (by decide) (by decide),
   (ObserveSQL_initial_thresholds exactSeconds (World.init ℚ) 7000000000 0 "success"
      "SELECT 1" [] rfl rfl).2.2.2.2 (by decide) (by decide),
   (ObserveSQL_initial_thresholds exactSeconds (World.init ℚ) 1200000000 0 "success"
      "SELECT 1" [] rfl rfl).2.1.1⟩

/-- C9, as stated, fails: with the thresholds at their initial values and the
logger at level error, an elapsed duration of 1.2 s gives no informational record
and one of 7 s gives no warning record; nothing is logged. -/
theorem ObserveSQL_initial_thresholds_counterexample :
    (({ World.init ℚ with logLevel := Level.Error }).SlowSQLThreshold = 1000000000
      ∧ ({ World.init ℚ with logLevel := Level.Error }).SlowSQLWarningThreshold
          = 5000000000)
    ∧ (ObserveSQL exactSeconds { World.init ℚ with logLevel := Level.Error }
        1200000000 0 "success" "SELECT 1" []).log = []
    ∧ (ObserveSQL exactSeconds { World.init ℚ with logLevel := Level.Error }
        7000000000 0 "success" "SELECT 1" []).log = [] := by
  refine ⟨⟨rfl, rfl⟩, ?_, ?_⟩
  · rw [log_info exactSeconds { World.init ℚ with logLevel := Level.Error } _ _ _ _ _
      (by decide) (by decide) (by decide)]
    rfl
  · rw [log_warn exactSeconds { World.init ℚ with logLevel := Level.Error } _ _ _ _ _
      (by decide) (by decide) (by decide)]
    rfl

/-- C10, as amended: with inverted thresholds
`0 < SlowSQLWarningThreshold < SlowSQLThreshold`, `ObserveSQL` keeps the order of
its branches: for every elapsed duration `d`, `d < slow` logs nothing (also when
`critical ≤ d`), `d ≥ slow` logs exactly one warning record when the logger's level
is warn or finer, and no informational record is logged for any `d`, at any
level. -/
theorem ObserveSQL_inverted_thresholds {F : Type} (Seconds : Duration → F) (w : World F)
    (now start : Time) (errCode sql : String) (args : List Operand)
    (hpos : 0 < w.SlowSQLWarningThreshold)
    (hinv : w.SlowSQLWarningThreshold < w.SlowSQLThreshold) :
    (Since now start < w.SlowSQLThreshold →
        (ObserveSQL Seconds w now start errCode sql args).log = w.log)
    ∧ (w.SlowSQLThreshold ≤ Since now start →
        IsLevelEnabled w.logLevel Level.Warn = true →
        (ObserveSQL Seconds w now start errCode sql args).log
          = w.log ++ [slowRecord Level.Warn start (Since now start) sql])
    ∧ countLevel Level.Info
        (emitted w.log (ObserveSQL Seconds w now start errCode sql args).log) = 0 := by
  have hquiet : Since now start < w.SlowSQLThreshold →
      (ObserveSQL Seconds w now start errCode sql args).log = w.log := fun hd =>
    log_quiet Seconds w now start errCode sql args (fun h => absurd hd (not_lt.mpr h.2))
  have hwarn : w.SlowSQLThreshold ≤ Since now start →
      (ObserveSQL Seconds w now start errCode sql args).log
        = if IsLevelEnabled w.logLevel Level.Warn
          then w.log ++ [slowRecord Level.Warn start (Since now start) sql]
          else w.log := fun hd =>
    log_warn Seconds w now start errCode sql args (lt_trans hpos hinv) hd
      (le_trans (le_of_lt hinv) hd)
  refine ⟨hquiet, fun hd hlvl => by rw [hwarn hd, if_pos hlvl], ?_⟩
  rcases lt_or_le (Since now start) w.SlowSQLThreshold with hd | hd
  · rw [hquiet hd, emitted_self]; rfl
  · rw [hwarn hd]
    split_ifs
    · rw [emitted_append]; simp [countLevel, slowRecord]
    · rw [emitted_self]; rfl

/-- Witness for C10: `slow = 5 s`, `critical = 1 s`, level info, with elapsed
durations of 2 s (between the two) and of 6 s. -/
theorem ObserveSQL_inverted_thresholds_witness :
    ((0 : Duration) < 1000000000 ∧ (1000000000 : Duration) < 5000000000)
    ∧ (ObserveSQL exactSeconds
        { World.init ℚ with SlowSQLThreshold := 5000000000,
                            SlowSQLWarningThreshold := 1000000000 }
        2000000000 0 "success" "SELECT 1" []).log = []
    ∧ (ObserveSQL exactSeconds
        { World.init ℚ with SlowSQLThreshold := 5000000000,
                            SlowSQLWarningThreshold := 1000000000 }
        6000000000 0 "success" "SELECT 1" []).log
        = [] ++ [slowRecord Level.Warn 0 (Since 6000000000 0) "SELECT 1"] :=
  ⟨⟨by decide, by decide⟩,
   (ObserveSQL_inverted_thresholds exactSeconds
      { World.init ℚ with SlowSQLThreshold := 5000000000,
                          SlowSQLWarningThreshold := 1000000000 }
      2000000000 0 "success" "SELECT 1" [] (by decide) (by decide)).1 (by decide),
   (ObserveSQL_inverted_thresholds exactSeconds
      { World.init ℚ with SlowSQLThreshold := 5000000000,
                          SlowSQLWarningThreshold := 1000000000 }
      6000000000 0 "success" "SELECT 1" [] (by decide) (by decide)).2.1 (by decide)
      (by decide)⟩

/-- C10, as stated, fails: with `slow = 5 s`, `critical = 1 s` and the logger at
level error, an elapsed duration of 6 s is `≥ slow` and nothing is logged. -/
theorem ObserveSQL_inverted_thresholds_counterexample :
    ((0 : Duration) < 1000000000 ∧ (1000000000 : Duration) < 5000000000
      ∧ (5000000000 : Duration) ≤ Since 6000000000 0)
    ∧ (ObserveSQL exactSeconds
        { World.init ℚ with SlowSQLThreshold := 5000000000,
                            SlowSQLWarningThreshold := 1000000000,
                            logLevel := Level.Error }
        6000000000 0 "success" "SELECT 1" []).log = [] := by
  refine ⟨⟨by decide, by decide, by decide⟩, ?_⟩
  rw [log_warn exactSeconds
      { World.init ℚ with SlowSQLThreshold := 5000000000,
                          SlowSQLWarningThreshold := 1000000000,
                          logLevel := Level.Error } _ _ _ _ _
      (by decide) (by decide) (by decide)]
  rfl

end Metrics
